import Mathlib

/-!
Verification development for the authentication/session-token subsystem of the
Fitness-PT backend (src/src/domains/auth/utils.py and
src/src/domains/auth/dependencies.py), shallowly embedded in Lean 4.

Modelling conventions:
* A JWT string is embedded symbolically as a `JwtToken`: its decoded payload
  together with two flags saying whether the string is structurally well formed
  and whether its signature verifies under the process secret.  This captures
  exactly the case analysis performed by PyJWT inside `jwt.decode`
  (malformed structure, bad signature, expired), whose expiry validation uses
  the inclusive comparison `exp <= now`.
* An itsdangerous URL-safe timed token is embedded symbolically as a
  `LinkToken`: the serialized payload, the embedded creation timestamp, and the
  salt of the serializer that signed it.  Unforgeability of the underlying MAC
  is modelled by letting `loads` succeed exactly when the decoding serializer
  has the same salt (the secret key is process-wide and shared).  The source
  calls `serializer.loads(token)` with no `max_age` argument, so the embedded
  timestamp is never compared against the current time; the model mirrors this
  by ignoring the timestamp in `decode_url_safe_token`.
* Time is a `Nat` (seconds); dictionaries are association lists.
* The FastAPI `HTTPException`s raised by the guards become the explicit error
  results of `AuthError`, with their status codes and detail strings kept.
-/

namespace FitnessPT

/-- Claim dictionaries (e.g. the `user_data` dict) as association lists. -/
abbrev Claims := List (String × String)

/-- `ACCESS_TOKEN_EXPIRY = 3600` from src/src/domains/auth/utils.py line 18. -/
def ACCESS_TOKEN_EXPIRY : Nat := 3600

/-- The payload dict built by `create_access_token`:
`{"user": user_data, "exp": ..., "jti": ..., "refresh": ...}`. -/
structure TokenPayload where
  user : Claims
  exp : Nat
  jti : String
  refresh : Bool
  deriving DecidableEq, Repr

/-- Symbolic embedding of a JWT string: the payload it carries plus whether the
string parses as a JWT at all and whether its signature verifies under the
process secret. -/
structure JwtToken where
  payload : TokenPayload
  wellFormed : Bool
  sigValid : Bool
  deriving DecidableEq, Repr

/-- The exceptions `jwt.decode` can raise, as caught by `decode_token`. -/
inductive JwtError where
  | expiredSignature
  | invalidToken
  deriving DecidableEq, Repr

/-- The validation performed inside `jwt.decode` (PyJWT): reject malformed
strings and bad signatures with `InvalidTokenError`, reject `exp <= now` with
`ExpiredSignatureError` (PyJWT validates expiry with an inclusive comparison),
otherwise return the payload. -/
def rawJwtDecode (t : JwtToken) (now : Nat) : Except JwtError TokenPayload :=
  if t.wellFormed = false then .error .invalidToken
  else if t.sigValid = false then .error .invalidToken
  else if t.payload.exp ≤ now then .error .expiredSignature
  else .ok t.payload

/-- `create_access_token` (utils.py lines 45-56): builds the payload with
`exp = now + (expiry if expiry is not None else ACCESS_TOKEN_EXPIRY)` and the
given `refresh` flag, and signs it with the process secret (so the resulting
token is well formed and has a valid signature).  The fresh `jti` drawn from
`uuid.uuid4()` is passed explicitly. -/
def create_access_token (user_data : Claims) (expiry : Option Nat)
    (refresh : Bool) (now : Nat) (jti : String) : JwtToken :=
  { payload :=
      { user := user_data
        exp := now + (expiry.getD ACCESS_TOKEN_EXPIRY)
        jti := jti
        refresh := refresh }
    wellFormed := true
    sigValid := true }

/-- `decode_token` (utils.py lines 58-71): calls `jwt.decode` and catches
`ExpiredSignatureError`, `InvalidTokenError` and every other exception,
returning `None` in all failure cases. -/
def decode_token (t : JwtToken) (now : Nat) : Option TokenPayload :=
  match rawJwtDecode t now with
  | .ok token_data => some token_data
  | .error _ => none

/-- The `HTTPException`s raised along the auth guard pipeline
(dependencies.py), plus `keyError` modelling the uncaught Python `KeyError`
when the payload user dict lacks an "email" entry. -/
inductive AuthError where
  | invalidCredentials
  | invalidOrExpired
  | provideAccessToken
  | tokenRevoked
  | provideRefreshToken
  | userNotFound
  | operationNotPermitted
  | keyError
  deriving DecidableEq, Repr

/-- The HTTP status code attached to each guard rejection (`keyError` is an
uncaught exception, surfaced by the framework as a 500). -/
def statusCode : AuthError → Nat
  | .operationNotPermitted => 403
  | .userNotFound => 404
  | .keyError => 500
  | _ => 401

/-- The `detail` string of each `HTTPException` raised by the guards. -/
def errorDetail : AuthError → String
  | .invalidCredentials => "Invalid authorization credentials"
  | .invalidOrExpired => "Invalid or expired token"
  | .provideAccessToken => "Please provide an access token"
  | .tokenRevoked => "Token has been revoked"
  | .provideRefreshToken => "Please provide a refresh token"
  | .userNotFound => "User not found"
  | .operationNotPermitted => "Operation not permitted"
  | .keyError => "KeyError"

/-- `add_jti_to_blocklist` (dependencies.py lines 115-118): inserts the jti
into the process-wide `token_blacklist` set.  The set is embedded as a list
with duplicate-free insertion. -/
def add_jti_to_blocklist (jti : String) (token_blacklist : List String) :
    List String :=
  token_blacklist.insert jti

/-- `AccessTokenBearer.__call__` (dependencies.py lines 23-55): reject missing
credentials, then undecodable tokens, then tokens with `refresh` set, then
blacklisted jtis; otherwise return the decoded payload. -/
def accessTokenBearer (token_blacklist : List String)
    (credentials : Option JwtToken) (now : Nat) :
    Except AuthError TokenPayload :=
  match credentials with
  | none => .error .invalidCredentials
  | some token =>
    match decode_token token now with
    | none => .error .invalidOrExpired
    | some token_data =>
      if token_data.refresh then .error .provideAccessToken
      else if token_data.jti ∈ token_blacklist then .error .tokenRevoked
      else .ok token_data

/-- `RefreshTokenBearer.__call__` (dependencies.py lines 61-85): reject missing
credentials, then undecodable tokens, then tokens without `refresh` set;
otherwise return the decoded payload.  Note: it takes no blacklist, exactly as
the source never consults `token_blacklist`. -/
def refreshTokenBearer (credentials : Option JwtToken) (now : Nat) :
    Except AuthError TokenPayload :=
  match credentials with
  | none => .error .invalidCredentials
  | some token =>
    match decode_token token now with
    | none => .error .invalidOrExpired
    | some token_data =>
      if token_data.refresh = false then .error .provideRefreshToken
      else .ok token_data

/-- The identity record resolved from the external user store, restricted to
the fields the guard pipeline reads. -/
structure User where
  email : String
  role : String
  deriving DecidableEq, Repr

/-- `get_current_user` (dependencies.py lines 87-101): reads
`token_details["user"]["email"]` (an absent key raises `KeyError`), looks the
user up by email, and raises 404 when the store returns nothing.  The store
lookup `UserService.get_user_by_email` is passed as a function. -/
def get_current_user (findByEmail : String → Option User)
    (token_details : TokenPayload) : Except AuthError User :=
  match token_details.user.lookup "email" with
  | none => .error .keyError
  | some user_email =>
    match findByEmail user_email with
    | none => .error .userNotFound
    | some user => .ok user

/-- `RoleChecker.__call__` (dependencies.py lines 103-113): raise 403 when the
resolved role is not in the allow-list, otherwise return `True`. -/
def roleChecker (allowed_roles : List String) (current_user : User) :
    Except AuthError Bool :=
  if current_user.role ∉ allowed_roles then .error .operationNotPermitted
  else .ok true

/-- The full role-gated guard pipeline as FastAPI composes the dependencies:
`AccessTokenBearer` then `get_current_user` then `RoleChecker`; a rejection at
any stage short-circuits. -/
def roleGuard (allowed_roles : List String) (token_blacklist : List String)
    (credentials : Option JwtToken) (now : Nat)
    (findByEmail : String → Option User) : Except AuthError Bool :=
  match accessTokenBearer token_blacklist credentials now with
  | .error e => .error e
  | .ok token_details =>
    match get_current_user findByEmail token_details with
    | .error e => .error e
    | .ok current_user => roleChecker allowed_roles current_user

/-- The serializer-selection expression shared by `create_url_safe_token` and
`decode_url_safe_token` (utils.py lines 85 and 93): the purpose string
"email-verification" selects `email_verification_serializer` (salt
"email-verification"); every other purpose string selects
`password_reset_serializer` (salt "password-reset"). -/
def saltFor (purpose : String) : String :=
  if purpose = "email-verification" then "email-verification"
  else "password-reset"

/-- Symbolic embedding of an itsdangerous URL-safe timed token: the serialized
payload, the creation timestamp the serializer embeds, and the salt of the
serializer that signed it (the MAC is modelled as unforgeable, so the salt
recorded here is the only one under which the signature verifies). -/
structure LinkToken where
  data : Claims
  timestamp : Nat
  salt : String
  deriving DecidableEq, Repr

/-- `create_url_safe_token` (utils.py lines 83-88): `serializer.dumps(data)`
under the purpose-selected serializer, which embeds the current timestamp and
signs under that serializer's salt. -/
def create_url_safe_token (data : Claims) (purpose : String) (now : Nat) :
    LinkToken :=
  { data := data, timestamp := now, salt := saltFor purpose }

/-- `decode_url_safe_token` (utils.py lines 90-99): `serializer.loads(token)`
under the purpose-selected serializer, catching every exception as `None`.
`loads` is called without a `max_age` argument, so itsdangerous performs no
age check: the result depends only on whether the signature verifies under
the selected salt, never on the embedded timestamp or the current time. -/
def decode_url_safe_token (token : LinkToken) (purpose : String) :
    Option Claims :=
  if token.salt = saltFor purpose then some token.data else none

/-- Concrete payload dict used by the witnesses. -/
def demoClaims : Claims := [("email", "a@x.com")]

/-! ### Token Codec claims (C6, C7, C8) -/

/-- C6: `decode_token` is total on arbitrary input: for every input whose raw
JWT validation fails (malformed structure, bad signature, or expired), it
returns `none` (Invalid); no exception escapes the codec boundary, because the
result type is an `Option` and every `rawJwtDecode` error is mapped to
`none`. -/
theorem C6_decode_token_total (t : JwtToken) (now : Nat)
    (h : t.wellFormed = false ∨ t.sigValid = false ∨ t.payload.exp ≤ now) :
    decode_token t now = none := by
  unfold decode_token rawJwtDecode
  rcases h with h | h | h
  · simp [h]
  · rcases hwf : t.wellFormed <;> simp [h]
  · rcases hwf : t.wellFormed <;> rcases hsig : t.sigValid <;> simp [h]

/-- Witness for C6: a malformed token maps to `none`. -/
theorem C6_witness :
    decode_token ⟨⟨demoClaims, 100, "j0", false⟩, false, false⟩ 0 = none :=
  C6_decode_token_total ⟨⟨demoClaims, 100, "j0", false⟩, false, false⟩ 0
    (Or.inl rfl)

/-- C7: expiry is inclusive at the boundary: whenever `exp ≤ now` — in
particular at exactly `now = exp` — `decode_token` returns `none`, whatever
the rest of the token looks like. -/
theorem C7_expiry_inclusive (t : JwtToken) (now : Nat)
    (h : t.payload.exp ≤ now) :
    decode_token t now = none := by
  unfold decode_token rawJwtDecode
  rcases hwf : t.wellFormed <;> rcases hsig : t.sigValid <;> simp [h]

/-- Witness for C7: a well-formed, correctly signed token decoded at exactly
its expiry instant is already rejected. -/
theorem C7_witness :
    decode_token ⟨⟨demoClaims, 5, "j0", false⟩, true, true⟩ 5 = none :=
  C7_expiry_inclusive ⟨⟨demoClaims, 5, "j0", false⟩, true, true⟩ 5
    (Nat.le_refl 5)

/-- C8: round trip of the Token Codec: decoding
`create_access_token user_data (some L) false` strictly before the expiry
instant `now0 + L` yields the payload with `user = user_data` and
`refresh = false`; decoding strictly after the lifetime has elapsed yields
`none`. -/
theorem C8_codec_round_trip (user_data : Claims) (L now0 jti_now : Nat)
    (jti : String) :
    (jti_now < now0 + L →
      decode_token (create_access_token user_data (some L) false now0 jti)
        jti_now = some ⟨user_data, now0 + L, jti, false⟩) ∧
    (now0 + L < jti_now →
      decode_token (create_access_token user_data (some L) false now0 jti)
        jti_now = none) := by
  constructor
  · intro h
    unfold decode_token rawJwtDecode create_access_token
    simp [Nat.not_le_of_lt h]
  · intro h
    unfold decode_token rawJwtDecode create_access_token
    simp [Nat.le_of_lt h]

/-- Witness for C8: with a 3600-second lifetime issued at time 0, decoding at
time 10 returns the claims and decoding at time 7200 returns `none`. -/
theorem C8_witness :
    decode_token (create_access_token demoClaims (some 3600) false 0 "j1") 10
      = some ⟨demoClaims, 0 + 3600, "j1", false⟩ ∧
    decode_token (create_access_token demoClaims (some 3600) false 0 "j1") 7200
      = none :=
  ⟨(C8_codec_round_trip demoClaims 3600 0 10 "j1").1 (by decide),
   (C8_codec_round_trip demoClaims 3600 0 7200 "j1").2 (by decide)⟩

/-! ### Purpose-scoped link token claims (C1, C4, C10) -/

/-- C1 (code evaluation): the source never enforces a validity window on link
tokens — `decode_url_safe_token` calls `loads` without `max_age`, so its
result does not depend on the embedded timestamp or on the current time.  A
"password-reset" token created at time 0 still decodes successfully no matter
how much time has passed (the decoder does not even take the current time as
an input), contradicting the claimed 1-hour rejection window. -/
theorem C1_no_age_check_eval :
    decode_url_safe_token
      (create_url_safe_token [("email", "a@x.com")] "password-reset" 0)
      "password-reset" = some [("email", "a@x.com")] := by
  decide

/-- C4: cross-purpose decoding always fails: a token created under
"email-verification" decodes to `none` under "password-reset", and
symmetrically, for every payload and every creation timestamp, because the two
purposes sign under distinct salts. -/
theorem C4_cross_purpose_invalid (data : Claims) (ts : Nat) :
    decode_url_safe_token (create_url_safe_token data "email-verification" ts)
      "password-reset" = none ∧
    decode_url_safe_token (create_url_safe_token data "password-reset" ts)
      "email-verification" = none := by
  constructor <;>
    simp [decode_url_safe_token, create_url_safe_token, saltFor]

/-- C10: every purpose other than "email-verification" collapses into the
"password-reset" scope: creating under such a purpose `p` yields the very same
token as creating under "password-reset", and that token decodes successfully
under "password-reset" and under any other purpose `q` distinct from
"email-verification". -/
theorem C10_purpose_collapse (data : Claims) (ts : Nat) (p q : String)
    (hp : p ≠ "email-verification") (hq : q ≠ "email-verification") :
    create_url_safe_token data p ts
      = create_url_safe_token data "password-reset" ts ∧
    decode_url_safe_token (create_url_safe_token data p ts) "password-reset"
      = some data ∧
    decode_url_safe_token (create_url_safe_token data p ts) q = some data := by
  refine ⟨?_, ?_, ?_⟩ <;>
    simp [create_url_safe_token, decode_url_safe_token, saltFor, hp, hq]

/-- Witness for C10: the unnamed purpose "signup" produces a "password-reset"
scoped token that also decodes under the unrelated purpose "magic-link". -/
theorem C10_witness :
    create_url_safe_token demoClaims "signup" 3
      = create_url_safe_token demoClaims "password-reset" 3 ∧
    decode_url_safe_token (create_url_safe_token demoClaims "signup" 3)
      "password-reset" = some demoClaims ∧
    decode_url_safe_token (create_url_safe_token demoClaims "signup" 3)
      "magic-link" = some demoClaims :=
  C10_purpose_collapse demoClaims 3 "signup" "magic-link" (by decide)
    (by decide)

/-! ### Auth guard claims (C2, C3, C5, C9) -/

/-- A jti inserted into the blocklist is still a member after any sequence of
later insertions: the registry only grows. -/
theorem jti_mem_after_adds (a : String) (l later : List String) (h : a ∈ l) :
    a ∈ later.foldl (fun s j => add_jti_to_blocklist j s) l := by
  induction later generalizing l with
  | nil => exact h
  | cons b bs ih =>
    exact ih (add_jti_to_blocklist b l)
      (by simp [add_jti_to_blocklist, List.mem_insert_iff, h])

/-- C2: the refresh-token guard never consults the revocation registry: a
valid, unexpired refresh token whose jti has been added to the blocklist is
still accepted, with its payload returned — the guard does not even take the
blacklist as an input, so the result is the same for every registry state. -/
theorem C2_refresh_guard_ignores_revocation (t : JwtToken) (now : Nat)
    (token_blacklist : List String) (hwf : t.wellFormed = true)
    (hsig : t.sigValid = true) (hexp : now < t.payload.exp)
    (href : t.payload.refresh = true) :
    t.payload.jti ∈ add_jti_to_blocklist t.payload.jti token_blacklist ∧
    refreshTokenBearer (some t) now = .ok t.payload := by
  refine ⟨List.mem_insert_self _ _, ?_⟩
  unfold refreshTokenBearer decode_token rawJwtDecode
  simp [hwf, hsig, href, Nat.not_le_of_lt hexp]

/-- Witness for C2: a blacklisted refresh token is accepted by
`refreshTokenBearer`. -/
theorem C2_witness :
    ("j2" : String) ∈ add_jti_to_blocklist "j2" [] ∧
    refreshTokenBearer (some ⟨⟨demoClaims, 100, "j2", true⟩, true, true⟩) 5
      = .ok ⟨demoClaims, 100, "j2", true⟩ :=
  C2_refresh_guard_ignores_revocation
    ⟨⟨demoClaims, 100, "j2", true⟩, true, true⟩ 5 [] rfl rfl (by decide) rfl

/-- C3: once `add_jti_to_blocklist` has run for a token's jti — no matter how
many other jtis are added afterwards — the access-token guard rejects that
still-valid, still-unexpired access token with the 401 "Token has been
revoked" error, however much validity remains. -/
theorem C3_revoked_access_token_rejected (t : JwtToken) (now : Nat)
    (bl0 later : List String) (hwf : t.wellFormed = true)
    (hsig : t.sigValid = true) (hexp : now < t.payload.exp)
    (href : t.payload.refresh = false) :
    accessTokenBearer
        (later.foldl (fun s j => add_jti_to_blocklist j s)
          (add_jti_to_blocklist t.payload.jti bl0))
        (some t) now = .error .tokenRevoked ∧
    statusCode .tokenRevoked = 401 := by
  refine ⟨?_, rfl⟩
  have hmem : t.payload.jti ∈
      later.foldl (fun s j => add_jti_to_blocklist j s)
        (add_jti_to_blocklist t.payload.jti bl0) :=
    jti_mem_after_adds _ _ later (List.mem_insert_self _ _)
  unfold accessTokenBearer decode_token rawJwtDecode
  simp [hwf, hsig, href, Nat.not_le_of_lt hexp, hmem]

/-- Witness for C3: a revoked access token with 95 seconds of validity left is
rejected as revoked even after a later unrelated revocation. -/
theorem C3_witness :
    accessTokenBearer
        (List.foldl (fun s j => add_jti_to_blocklist j s)
          (add_jti_to_blocklist "j3" []) ["other"])
        (some ⟨⟨demoClaims, 100, "j3", false⟩, true, true⟩) 5
      = .error .tokenRevoked ∧
    statusCode .tokenRevoked = 401 :=
  C3_revoked_access_token_rejected
    ⟨⟨demoClaims, 100, "j3", false⟩, true, true⟩ 5 [] ["other"] rfl rfl
    (by decide) rfl

/-- C5: wrong token type is rejected in both directions with 401 and the
expected detail strings: a valid, unexpired refresh token presented to the
access-token guard yields "Please provide an access token" (for every registry
state), and a valid, unexpired access token presented to the refresh-token
guard yields "Please provide a refresh token". -/
theorem C5_wrong_token_type (t u : JwtToken) (now : Nat)
    (token_blacklist : List String) (htwf : t.wellFormed = true)
    (htsig : t.sigValid = true) (htexp : now < t.payload.exp)
    (htref : t.payload.refresh = true) (huwf : u.wellFormed = true)
    (husig : u.sigValid = true) (huexp : now < u.payload.exp)
    (huref : u.payload.refresh = false) :
    accessTokenBearer token_blacklist (some t) now
      = .error .provideAccessToken ∧
    errorDetail .provideAccessToken = "Please provide an access token" ∧
    statusCode .provideAccessToken = 401 ∧
    refreshTokenBearer (some u) now = .error .provideRefreshToken ∧
    errorDetail .provideRefreshToken = "Please provide a refresh token" ∧
    statusCode .provideRefreshToken = 401 := by
  refine ⟨?_, rfl, rfl, ?_, rfl, rfl⟩
  · unfold accessTokenBearer decode_token rawJwtDecode
    simp [htwf, htsig, htref, Nat.not_le_of_lt htexp]
  · unfold refreshTokenBearer decode_token rawJwtDecode
    simp [huwf, husig, huref, Nat.not_le_of_lt huexp]

/-- Witness for C5: concrete refresh and access tokens are cross-rejected. -/
theorem C5_witness :
    accessTokenBearer [] (some ⟨⟨demoClaims, 100, "j4", true⟩, true, true⟩) 5
      = .error .provideAccessToken ∧
    errorDetail .provideAccessToken = "Please provide an access token" ∧
    statusCode .provideAccessToken = 401 ∧
    refreshTokenBearer (some ⟨⟨demoClaims, 100, "j5", false⟩, true, true⟩) 5
      = .error .provideRefreshToken ∧
    errorDetail .provideRefreshToken = "Please provide a refresh token" ∧
    statusCode .provideRefreshToken = 401 :=
  C5_wrong_token_type ⟨⟨demoClaims, 100, "j4", true⟩, true, true⟩
    ⟨⟨demoClaims, 100, "j5", false⟩, true, true⟩ 5 [] rfl rfl (by decide) rfl
    rfl rfl (by decide) rfl

/-- C9: for a request that passes extraction, decoding, type-check,
revocation-check and identity resolution, a resolved role outside the
allow-list is rejected with 403 Forbidden ("Operation not permitted"), not
with a 401; a resolved role inside the allow-list passes the role check with
`true`. -/
theorem C9_role_check (allowed_roles token_blacklist : List String)
    (t : JwtToken) (now : Nat) (findByEmail : String → Option User)
    (email : String) (u : User) (hwf : t.wellFormed = true)
    (hsig : t.sigValid = true) (hexp : now < t.payload.exp)
    (href : t.payload.refresh = false)
    (hjti : t.payload.jti ∉ token_blacklist)
    (hemail : t.payload.user.lookup "email" = some email)
    (hfind : findByEmail email = some u) :
    (u.role ∉ allowed_roles →
      roleGuard allowed_roles token_blacklist (some t) now findByEmail
        = .error .operationNotPermitted ∧
      statusCode .operationNotPermitted = 403 ∧
      statusCode .operationNotPermitted ≠ 401) ∧
    (u.role ∈ allowed_roles →
      roleGuard allowed_roles token_blacklist (some t) now findByEmail
        = .ok true) := by
  have hbearer : accessTokenBearer token_blacklist (some t) now
      = .ok t.payload := by
    unfold accessTokenBearer decode_token rawJwtDecode
    simp [hwf, hsig, href, Nat.not_le_of_lt hexp, hjti]
  have huser : get_current_user findByEmail t.payload = .ok u := by
    unfold get_current_user
    simp [hemail, hfind]
  constructor
  · intro hrole
    refine ⟨?_, rfl, by decide⟩
    unfold roleGuard
    simp [hbearer, huser, roleChecker, hrole]
  · intro hrole
    unfold roleGuard
    simp [hbearer, huser, roleChecker, hrole]

/-- Witness for C9: a "user"-role identity at a guard allowing only "admin" is
rejected with 403, and the same identity at a guard allowing "admin" and
"user" passes. -/
theorem C9_witness :
    (roleGuard ["admin"] []
        (some ⟨⟨demoClaims, 100, "j6", false⟩, true, true⟩) 5
        (fun e => if e = "a@x.com" then some ⟨"a@x.com", "user"⟩ else none)
      = .error .operationNotPermitted ∧
     statusCode .operationNotPermitted = 403 ∧
     statusCode .operationNotPermitted ≠ 401) ∧
    roleGuard ["admin", "user"] []
        (some ⟨⟨demoClaims, 100, "j6", false⟩, true, true⟩) 5
        (fun e => if e = "a@x.com" then some ⟨"a@x.com", "user"⟩ else none)
      = .ok true :=
  ⟨(C9_role_check ["admin"] [] ⟨⟨demoClaims, 100, "j6", false⟩, true, true⟩ 5
      (fun e => if e = "a@x.com" then some ⟨"a@x.com", "user"⟩ else none)
      "a@x.com" ⟨"a@x.com", "user"⟩ rfl rfl (by decide) rfl (by decide)
      (by decide) (by decide)).1 (by decide),
   (C9_role_check ["admin", "user"] []
      ⟨⟨demoClaims, 100, "j6", false⟩, true, true⟩ 5
      (fun e => if e = "a@x.com" then some ⟨"a@x.com", "user"⟩ else none)
      "a@x.com" ⟨"a@x.com", "user"⟩ rfl rfl (by decide) rfl (by decide)
      (by decide) (by decide)).2 (by decide)⟩

end FitnessPT
